import Mathlib

/-!
Verification of the XAI Health & Fitness system against its design
specification.  Python strings are embedded as `List Char` (a Python
`str` is a sequence of characters; single-character `str.replace` and
slicing correspond to `List.map` and `List.take`).  Python floats are
embedded as rationals (all arithmetic in the spec formulas is exact).
Fallible operations return `Except`.
-/

namespace XAIHealth

/-! ## Embedding of `src/firebase_service.py` and `src/firebase_db.py` -/

/-- A feedback entry as built by `store_feedback` (both the
`FirebaseService` and the `FirebaseDatabase` variant build the same
record shape).  The `timestamp` (wall-clock `datetime.now()`) is passed
in explicitly. -/
structure FeedbackEntry where
  user_email : List Char
  feedback_type : List Char
  advice_text : List Char
  detailed_comment : Option (List Char)
  timestamp : List Char
  deriving Repr, DecidableEq

namespace FirebaseService

/-- `FirebaseService._encode_key` from `src/firebase_service.py`:
`str(key).replace('@', '_').replace('.', '-')`, with falsy (empty)
keys returned unchanged.  Single-character `str.replace` replaces every
occurrence, i.e. maps over the characters. -/
def encode_key (key : List Char) : List Char :=
  if key = [] then key
  else (key.map (fun c => if c = '@' then '_' else c)).map
    (fun c => if c = '.' then '-' else c)

/-- The feedback entry built by `FirebaseService.store_feedback` in
`src/firebase_service.py`: `advice_text[:200]`, the other caller-supplied
fields stored as given. -/
def store_feedback_entry (user_email feedback_type advice_text : List Char)
    (detailed_comment : Option (List Char)) (timestamp : List Char) :
    FeedbackEntry :=
  { user_email := user_email
    feedback_type := feedback_type
    advice_text := advice_text.take 200
    detailed_comment := detailed_comment
    timestamp := timestamp }

end FirebaseService

namespace FirebaseDatabase

/-- The feedback entry built by `FirebaseDatabase.store_feedback` in
`src/firebase_db.py`: `advice_text[:200]` ("Store first 200 chars"),
the other caller-supplied fields stored as given. -/
def store_feedback_entry (user_email feedback_type advice_text : List Char)
    (detailed_comment : Option (List Char)) (timestamp : List Char) :
    FeedbackEntry :=
  { user_email := user_email
    feedback_type := feedback_type
    advice_text := advice_text.take 200
    detailed_comment := detailed_comment
    timestamp := timestamp }

end FirebaseDatabase

/-! ## Theorems for C9 and C10 -/

/-- C9: every feedback entry built by `store_feedback` (both the
realtime-database service and the Firestore variant) stores exactly the
first 200 characters of the advice text — the stored `advice_text` is
`advice_text` truncated to length 200 (a prefix of the input, of length
`min 200 (length advice_text)`), while `user_email`, `feedback_type` and
`detailed_comment` are stored unmodified. -/
theorem store_feedback_truncates (ue ft at_ : List Char)
    (dc : Option (List Char)) (ts : List Char) :
    ((FirebaseService.store_feedback_entry ue ft at_ dc ts).advice_text
        = at_.take 200
      ∧ (FirebaseService.store_feedback_entry ue ft at_ dc ts).advice_text.length
        = min 200 at_.length
      ∧ (FirebaseService.store_feedback_entry ue ft at_ dc ts).advice_text <+: at_
      ∧ (FirebaseService.store_feedback_entry ue ft at_ dc ts).user_email = ue
      ∧ (FirebaseService.store_feedback_entry ue ft at_ dc ts).feedback_type = ft
      ∧ (FirebaseService.store_feedback_entry ue ft at_ dc ts).detailed_comment = dc)
    ∧ ((FirebaseDatabase.store_feedback_entry ue ft at_ dc ts).advice_text
        = at_.take 200
      ∧ (FirebaseDatabase.store_feedback_entry ue ft at_ dc ts).advice_text.length
        = min 200 at_.length
      ∧ (FirebaseDatabase.store_feedback_entry ue ft at_ dc ts).advice_text <+: at_
      ∧ (FirebaseDatabase.store_feedback_entry ue ft at_ dc ts).user_email = ue
      ∧ (FirebaseDatabase.store_feedback_entry ue ft at_ dc ts).feedback_type = ft
      ∧ (FirebaseDatabase.store_feedback_entry ue ft at_ dc ts).detailed_comment = dc) := by
  refine ⟨⟨rfl, ?_, ?_, rfl, rfl, rfl⟩, ⟨rfl, ?_, ?_, rfl, rfl, rfl⟩⟩ <;>
    simp [FirebaseService.store_feedback_entry,
      FirebaseDatabase.store_feedback_entry, List.length_take,
      List.take_prefix, Nat.min_comm]

/-- Replacing out every `@` and then every `.` leaves a list that
already contains neither character unchanged. -/
lemma map_replace_id (l : List Char) :
    '@' ∉ l → '.' ∉ l →
    (l.map (fun c => if c = '@' then '_' else c)).map
      (fun c => if c = '.' then '-' else c) = l := by
  induction l with
  | nil => intro _ _; rfl
  | cons c cs ih =>
    intro hat hdot
    simp only [List.map_cons]
    have hc1 : c ≠ '@' := fun h => hat (by simp [h])
    have hc2 : c ≠ '.' := fun h => hdot (by simp [h])
    rw [if_neg hc1, if_neg hc2,
      ih (fun h => hat (List.mem_cons_of_mem c h))
        (fun h => hdot (List.mem_cons_of_mem c h))]

/-- `_encode_key` never leaves an `@` or a `.` in its output. -/
lemma encode_key_no_bad (key : List Char) :
    '@' ∉ FirebaseService.encode_key key
      ∧ '.' ∉ FirebaseService.encode_key key := by
  unfold FirebaseService.encode_key
  by_cases hk : key = []
  · subst hk; simp
  · rw [if_neg hk]
    constructor
    · intro hmem
      rcases List.mem_map.mp hmem with ⟨b, hbmem, hb⟩
      by_cases hbdot : b = '.'
      · rw [if_pos hbdot] at hb; exact absurd hb (by decide)
      · rw [if_neg hbdot] at hb
        subst hb
        rcases List.mem_map.mp hbmem with ⟨a, hamem, ha⟩
        by_cases haat : a = '@'
        · rw [if_pos haat] at ha; exact absurd ha (by decide)
        · rw [if_neg haat] at ha; exact haat ha
    · intro hmem
      rcases List.mem_map.mp hmem with ⟨b, hbmem, hb⟩
      by_cases hbdot : b = '.'
      · rw [if_pos hbdot] at hb; exact absurd hb (by decide)
      · rw [if_neg hbdot] at hb; exact hbdot hb

/-- A key with neither `@` nor `.` is a fixed point of `_encode_key`. -/
lemma encode_key_fixed (l : List Char) (hat : '@' ∉ l) (hdot : '.' ∉ l) :
    FirebaseService.encode_key l = l := by
  unfold FirebaseService.encode_key
  by_cases hl : l = []
  · simp [hl]
  · rw [if_neg hl]; exact map_replace_id l hat hdot

/-- C10: `_encode_key` produces Firebase-safe keys — for every key the
result contains no `@` and no `.` character — and is idempotent
(`_encode_key (_encode_key k) = _encode_key k`); it is not injective:
the two distinct keys `a.b@c` and `a-b_c` encode to the same storage
key. -/
theorem encode_key_spec :
    (∀ key : List Char,
        ('@' ∉ FirebaseService.encode_key key
          ∧ '.' ∉ FirebaseService.encode_key key)
        ∧ FirebaseService.encode_key (FirebaseService.encode_key key)
          = FirebaseService.encode_key key)
    ∧ (FirebaseService.encode_key ['a', '.', 'b', '@', 'c']
        = FirebaseService.encode_key ['a', '-', 'b', '_', 'c']
      ∧ ['a', '.', 'b', '@', 'c'] ≠ ['a', '-', 'b', '_', 'c']) := by
  refine ⟨fun key =>
    ⟨encode_key_no_bad key,
      encode_key_fixed _ (encode_key_no_bad key).1 (encode_key_no_bad key).2⟩,
    by decide, by decide⟩

/-! ## Core data model, modelled from the spec

The computational core (`main.py`, `models/user_profile.py`,
`tracker.py`, `database.py`) is imported by `src/app.py` but is not part
of the sources here; the definitions below carry a `Modelled from the
spec` note and follow spec sections 3, 4.1-4.4 literally. -/

/-- Modelled from the spec: gender enum of §3 (`models/user_profile.py`
is not in the sources). -/
inductive Gender where
  | male
  | female
  | other
  deriving Repr, DecidableEq

/-- Modelled from the spec: activity-level enum of §3. -/
inductive ActivityLevel where
  | sedentary
  | light
  | moderate
  | active
  | veryActive
  deriving Repr, DecidableEq

/-- Modelled from the spec: fitness-goal enum of §3. -/
inductive FitnessGoal where
  | lose
  | maintain
  | gain
  deriving Repr, DecidableEq

/-- Modelled from the spec: the `UserProfile` record of §3
(`models/user_profile.py` is not in the sources).  Heights are in cm,
weights in kg; numeric fields are rationals. -/
structure UserProfile where
  age : ℚ
  gender : Gender
  height : ℚ
  weight : ℚ
  goal : FitnessGoal
  activity : ActivityLevel
  sleep_target : ℚ
  deriving Repr, DecidableEq

/-- Modelled from the spec: the error taxonomy of §7. -/
inductive HealthError where
  | validationError
  | notFoundError
  deriving Repr, DecidableEq

/-- Derived metrics: BMI, BMR, TDEE (§3, §4.1). -/
structure Metrics where
  bmi : ℚ
  bmr : ℚ
  tdee : ℚ
  deriving Repr, DecidableEq

/-- Modelled from the spec: the fixed activity-factor lookup of §4.1
(sedentary 1.2, light 1.375, moderate 1.55, active 1.725,
very-active 1.9). -/
def activityFactor : ActivityLevel → ℚ
  | ActivityLevel.sedentary => 1.2
  | ActivityLevel.light => 1.375
  | ActivityLevel.moderate => 1.55
  | ActivityLevel.active => 1.725
  | ActivityLevel.veryActive => 1.9

/-- Modelled from the spec: `computeMetrics` of §4.1 (the Metrics
Calculator lives in the absent `models/user_profile.py` / `main.py`).
Validation first (§7: signaled before any computation), then BMI from
height in metres, BMR by Mifflin-St Jeor branching on gender, TDEE as
BMR times the activity factor. -/
def computeMetrics (p : UserProfile) : Except HealthError Metrics :=
  if p.height ≤ 0 ∨ p.weight ≤ 0 ∨ p.age ≤ 0 then
    Except.error HealthError.validationError
  else
    let heightM : ℚ := p.height / 100
    let bmrMale : ℚ := 10 * p.weight + 6.25 * p.height - 5 * p.age + 5
    let bmrFemale : ℚ := 10 * p.weight + 6.25 * p.height - 5 * p.age - 161
    let bmr : ℚ :=
      match p.gender with
      | Gender.male => bmrMale
      | Gender.female => bmrFemale
      | Gender.other => (bmrMale + bmrFemale) / 2
    Except.ok
      { bmi := p.weight / (heightM * heightM)
        bmr := bmr
        tdee := bmr * activityFactor p.activity }

/-- The spec's worked example (§8): male, 30 y, 180 cm, 80 kg, moderate
activity. -/
def sampleMale : UserProfile :=
  { age := 30
    gender := Gender.male
    height := 180
    weight := 80
    goal := FitnessGoal.maintain
    activity := ActivityLevel.moderate
    sleep_target := 8 }

/-- C2: for every profile with positive height, weight and age,
`computeMetrics` succeeds with `bmi = weight / height_m²`, `bmr` by the
Mifflin-St Jeor equation branching on gender (other = average of the
male and female branches) and `tdee = bmr *` the fixed activity factor;
for every profile with non-positive height, weight or age it fails with
`ValidationError`. -/
theorem computeMetrics_spec (p : UserProfile) :
    (0 < p.height → 0 < p.weight → 0 < p.age →
      computeMetrics p = Except.ok
        { bmi := p.weight / ((p.height / 100) * (p.height / 100))
          bmr :=
            match p.gender with
            | Gender.male => 10 * p.weight + 6.25 * p.height - 5 * p.age + 5
            | Gender.female => 10 * p.weight + 6.25 * p.height - 5 * p.age - 161
            | Gender.other =>
                ((10 * p.weight + 6.25 * p.height - 5 * p.age + 5)
                  + (10 * p.weight + 6.25 * p.height - 5 * p.age - 161)) / 2
          tdee :=
            (match p.gender with
            | Gender.male => 10 * p.weight + 6.25 * p.height - 5 * p.age + 5
            | Gender.female => 10 * p.weight + 6.25 * p.height - 5 * p.age - 161
            | Gender.other =>
                ((10 * p.weight + 6.25 * p.height - 5 * p.age + 5)
                  + (10 * p.weight + 6.25 * p.height - 5 * p.age - 161)) / 2)
              * activityFactor p.activity })
    ∧ (p.height ≤ 0 ∨ p.weight ≤ 0 ∨ p.age ≤ 0 →
      computeMetrics p = Except.error HealthError.validationError) := by
  constructor
  · intro hh hw ha
    have hcond : ¬(p.height ≤ 0 ∨ p.weight ≤ 0 ∨ p.age ≤ 0) := by
      push_neg
      exact ⟨hh, hw, ha⟩
    unfold computeMetrics
    rw [if_neg hcond]
  · intro hcond
    unfold computeMetrics
    rw [if_pos hcond]

/-- Witness for C2: on the spec's worked example the hypotheses hold and
`computeMetrics` returns BMI 2000/81 (≈ 24.7), BMR 1780, TDEE 2759. -/
theorem computeMetrics_spec_witness :
    computeMetrics sampleMale = Except.ok { bmi := 2000 / 81, bmr := 1780, tdee := 2759 } := by
  have h := (computeMetrics_spec sampleMale).1 (by norm_num [sampleMale])
    (by norm_num [sampleMale]) (by norm_num [sampleMale])
  rw [h]
  norm_num [sampleMale, activityFactor, Metrics.mk.injEq]

/-- C8: for every pair of profiles identical except for gender (one
male, one female) with positive height, weight and age, the male BMR
exceeds the female BMR by exactly 166. -/
theorem bmr_gender_difference (p : UserProfile) (hh : 0 < p.height)
    (hw : 0 < p.weight) (ha : 0 < p.age) :
    ∃ mM mF : Metrics,
      computeMetrics { p with gender := Gender.male } = Except.ok mM
        ∧ computeMetrics { p with gender := Gender.female } = Except.ok mF
        ∧ mM.bmr - mF.bmr = 166 := by
  have hM := (computeMetrics_spec { p with gender := Gender.male }).1 hh hw ha
  have hF := (computeMetrics_spec { p with gender := Gender.female }).1 hh hw ha
  exact ⟨_, _, hM, hF, by ring⟩

/-- Witness for C8: at the spec's worked example the male BMR (1780)
exceeds the female BMR (1614) by 166. -/
theorem bmr_gender_difference_witness :
    ∃ mM mF : Metrics,
      computeMetrics { sampleMale with gender := Gender.male } = Except.ok mM
        ∧ computeMetrics { sampleMale with gender := Gender.female } = Except.ok mF
        ∧ mM.bmr - mF.bmr = 166 :=
  bmr_gender_difference sampleMale (by norm_num [sampleMale])
    (by norm_num [sampleMale]) (by norm_num [sampleMale])

/-! ## Daily tracker, modelled from the spec (§3, §4.3)

`tracker.py` (class `DailyTracker`) is imported by `src/app.py` but is
not in the sources; the state and operations below follow §3 and §4.3.
A tracker store maps a calendar date (an integer day number) to the
day's record; mutation results carry the possibly-updated store
explicitly, so "the stored record is unchanged" is the literal equality
of stores. -/

/-- Modelled from the spec: `DailyTrackerRecord` of §3 — step count,
cumulative water (ml), sleep hours, meal/exercise completion maps and
the food-substitution map. -/
structure TrackerRecord where
  steps : ℤ
  water_ml : ℤ
  sleep_hours : ℚ
  meals : List Char → Bool
  exercises : List Char → List Char → Bool
  substitutions : List Char → Option (List Char × List Char)

/-- Modelled from the spec: the zero-valued default record (§3, §4.4). -/
def zeroRecord : TrackerRecord :=
  { steps := 0
    water_ml := 0
    sleep_hours := 0
    meals := fun _ => false
    exercises := fun _ _ => false
    substitutions := fun _ => none }

/-- Modelled from the spec: one user's tracker storage, a map from
calendar date to that day's record (§3: exactly one record per date,
created lazily). -/
structure TrackerStore where
  records : ℤ → Option TrackerRecord

/-- Store a record under a date. -/
def setToday (s : TrackerStore) (today : ℤ) (r : TrackerRecord) :
    TrackerStore :=
  { records := fun d => if d = today then some r else s.records d }

/-- Modelled from the spec: `getOrCreateToday` of §4.3 — returns the
existing record, or creates a zero-valued one (lazily, §3). -/
def getOrCreateToday (s : TrackerStore) (today : ℤ) :
    TrackerRecord × TrackerStore :=
  match s.records today with
  | some r => (r, s)
  | none => (zeroRecord, setToday s today zeroRecord)

/-- Modelled from the spec: `updateSteps` of §4.3 — absolute set of
today's step count; negative values rejected before any state is
touched (§7). -/
def update_steps (s : TrackerStore) (today : ℤ) (n : ℤ) :
    TrackerStore × Except HealthError TrackerRecord :=
  if n < 0 then (s, Except.error HealthError.validationError)
  else
    let rs := getOrCreateToday s today
    let r := { rs.1 with steps := n }
    (setToday rs.2 today r, Except.ok r)

/-- Modelled from the spec: `addWater` of §4.3 — increments today's
cumulative water by `ml`; negative values rejected before any state is
touched (§7). -/
def add_water (s : TrackerStore) (today : ℤ) (ml : ℤ) :
    TrackerStore × Except HealthError TrackerRecord :=
  if ml < 0 then (s, Except.error HealthError.validationError)
  else
    let rs := getOrCreateToday s today
    let r := { rs.1 with water_ml := rs.1.water_ml + ml }
    (setToday rs.2 today r, Except.ok r)

/-- The `/tracker/water` route of `src/app.py` reads the increment as
`data.get('ml', 250)` — a missing parameter defaults to 250 — and then
delegates to the tracker's `add_water`. -/
def add_water_route (s : TrackerStore) (today : ℤ) (mlParam : Option ℤ) :
    TrackerStore × Except HealthError TrackerRecord :=
  add_water s today (mlParam.getD 250)

/-- Modelled from the spec: `updateSleep` of §4.3 — sets today's sleep
hours; values outside [0, 24] rejected before any state is touched
(§7). -/
def update_sleep (s : TrackerStore) (today : ℤ) (hours : ℚ) :
    TrackerStore × Except HealthError TrackerRecord :=
  if hours < 0 ∨ 24 < hours then (s, Except.error HealthError.validationError)
  else
    let rs := getOrCreateToday s today
    let r := { rs.1 with sleep_hours := hours }
    (setToday rs.2 today r, Except.ok r)

/-- Modelled from the spec: `completeMeal` of §4.3 — sets the meal's
completion flag to true (pending → completed, no-op when already
completed). -/
def complete_meal (s : TrackerStore) (today : ℤ) (meal : List Char) :
    TrackerStore × TrackerRecord :=
  let rs := getOrCreateToday s today
  let r := { rs.1 with meals := Function.update rs.1.meals meal true }
  (setToday rs.2 today r, r)

/-- Modelled from the spec: `uncompleteMeal` of §4.3 — sets the meal's
completion flag to false (completed → pending, no-op when already
pending). -/
def uncomplete_meal (s : TrackerStore) (today : ℤ) (meal : List Char) :
    TrackerStore × TrackerRecord :=
  let rs := getOrCreateToday s today
  let r := { rs.1 with meals := Function.update rs.1.meals meal false }
  (setToday rs.2 today r, r)

/-- The empty store: no record on any date. -/
def emptyStore : TrackerStore := { records := fun _ => none }

/-- C3: tracker mutations reject out-of-domain values atomically — a
negative step count, negative water ml, or sleep hours outside [0, 24]
each yield a `ValidationError` and return the store exactly as it was
(no clamping, no partial update). -/
theorem tracker_rejects_out_of_domain (s : TrackerStore) (today : ℤ)
    (n ml : ℤ) (hours : ℚ) :
    (n < 0 →
      update_steps s today n = (s, Except.error HealthError.validationError))
    ∧ (ml < 0 →
      add_water s today ml = (s, Except.error HealthError.validationError))
    ∧ (hours < 0 ∨ 24 < hours →
      update_sleep s today hours
        = (s, Except.error HealthError.validationError)) := by
  refine ⟨fun hn => ?_, fun hm => ?_, fun hh => ?_⟩
  · unfold update_steps; rw [if_pos hn]
  · unfold add_water; rw [if_pos hm]
  · unfold update_sleep; rw [if_pos hh]

/-- Witness for C3: steps −1, water −250 and sleep 25 are each rejected
on the empty store, which is returned unchanged. -/
theorem tracker_rejects_out_of_domain_witness :
    update_steps emptyStore 0 (-1)
        = (emptyStore, Except.error HealthError.validationError)
      ∧ add_water emptyStore 0 (-250)
        = (emptyStore, Except.error HealthError.validationError)
      ∧ update_sleep emptyStore 0 25
        = (emptyStore, Except.error HealthError.validationError) :=
  ⟨(tracker_rejects_out_of_domain emptyStore 0 (-1) (-250) 25).1 (by norm_num),
   (tracker_rejects_out_of_domain emptyStore 0 (-1) (-250) 25).2.1 (by norm_num),
   (tracker_rejects_out_of_domain emptyStore 0 (-1) (-250) 25).2.2
     (Or.inr (by norm_num))⟩

/-- Writing back the record a date already holds leaves the store
unchanged. -/
lemma setToday_self (s : TrackerStore) (t : ℤ) (r : TrackerRecord)
    (h : s.records t = some r) : setToday s t r = s := by
  obtain ⟨f⟩ := s
  simp only [setToday]
  congr 1
  funext d
  by_cases hd : d = t
  · subst hd; rw [if_pos rfl]; exact h.symm
  · simp [hd]

/-- Two consecutive writes to the same date keep only the second. -/
lemma setToday_setToday (s : TrackerStore) (t : ℤ)
    (r1 r2 : TrackerRecord) :
    setToday (setToday s t r1) t r2 = setToday s t r2 := by
  simp only [setToday]
  congr 1
  funext d
  by_cases hd : d = t <;> simp [hd]

/-- `complete_meal` on a store that already holds a record for the day,
spelled out. -/
lemma complete_meal_of_some (s : TrackerStore) (t : ℤ) (m : List Char)
    (r : TrackerRecord) (h : s.records t = some r) :
    complete_meal s t m
      = (setToday s t { r with meals := Function.update r.meals m true },
        { r with meals := Function.update r.meals m true }) := by
  unfold complete_meal getOrCreateToday
  rw [h]

/-- `uncomplete_meal` on a store that already holds a record for the
day, spelled out. -/
lemma uncomplete_meal_of_some (s : TrackerStore) (t : ℤ) (m : List Char)
    (r : TrackerRecord) (h : s.records t = some r) :
    uncomplete_meal s t m
      = (setToday s t { r with meals := Function.update r.meals m false },
        { r with meals := Function.update r.meals m false }) := by
  unfold uncomplete_meal getOrCreateToday
  rw [h]

/-- After `complete_meal`, the returned record is the one stored for the
day. -/
lemma complete_meal_records (s : TrackerStore) (t : ℤ) (m : List Char) :
    ((complete_meal s t m).1).records t = some (complete_meal s t m).2 := by
  unfold complete_meal
  simp [setToday]

/-- After `complete_meal`, the meal's flag is set. -/
lemma complete_meal_flag (s : TrackerStore) (t : ℤ) (m : List Char) :
    ((complete_meal s t m).2).meals m = true := by
  unfold complete_meal
  simp [Function.update_same]

/-- C5: meal completion flags obey the idempotence and round-trip laws —
repeating `completeMeal` on the same meal leaves the store equal to a
single `completeMeal` (a no-op, not an error), and `completeMeal`
followed by `uncompleteMeal` on a meal that was originally pending
restores the original store. -/
theorem meal_completion_laws (s : TrackerStore) (today : ℤ)
    (meal : List Char) :
    (complete_meal (complete_meal s today meal).1 today meal).1
        = (complete_meal s today meal).1
    ∧ (∀ r : TrackerRecord, s.records today = some r →
        r.meals meal = false →
        (uncomplete_meal (complete_meal s today meal).1 today meal).1 = s) := by
  constructor
  · have h1 := complete_meal_records s today meal
    rw [complete_meal_of_some _ today meal _ h1]
    dsimp only
    have hm : Function.update (complete_meal s today meal).2.meals meal true
        = (complete_meal s today meal).2.meals := by
      conv_lhs => rw [← complete_meal_flag s today meal]
      exact Function.update_eq_self meal _
    rw [hm]
    exact setToday_self _ today _ h1
  · intro r hrec hflag
    rw [complete_meal_of_some s today meal r hrec]
    dsimp only
    rw [uncomplete_meal_of_some _ today meal
      { r with meals := Function.update r.meals meal true } (by simp [setToday])]
    dsimp only
    rw [setToday_setToday]
    have hmeals : Function.update (Function.update r.meals meal true) meal false
        = r.meals := by
      rw [Function.update_idem, ← hflag]
      exact Function.update_eq_self meal r.meals
    rw [hmeals]
    exact setToday_self s today r hrec

/-- A one-day store holding the zero-valued record on day 0. -/
def pendingStore : TrackerStore :=
  { records := fun d => if d = 0 then some zeroRecord else none }

/-- Witness for C5: on a store whose day-0 record has every meal pending,
completing then uncompleting the breakfast flag restores the store. -/
theorem meal_completion_laws_witness :
    (uncomplete_meal (complete_meal pendingStore 0 ['b']).1 0 ['b']).1
      = pendingStore :=
  (meal_completion_laws pendingStore 0 ['b']).2 zeroRecord (by simp [pendingStore]) rfl

/-- C7: for every non-negative `ml`, `addWater` increments today's
cumulative water by exactly `ml` — the stored (and returned) record is
today's record with `water_ml = old + ml`, where the old record is
today's stored record or the zero-valued default if none existed;
a missing route parameter defaults the increment to 250
(`data.get('ml', 250)` in `src/app.py`); a negative `ml` is rejected. -/
theorem add_water_spec (s : TrackerStore) (today : ℤ) (ml : ℤ) :
    (0 ≤ ml →
      (add_water s today ml).1.records today
          = some { (s.records today).getD zeroRecord with
              water_ml := ((s.records today).getD zeroRecord).water_ml + ml }
        ∧ (add_water s today ml).2
          = Except.ok { (s.records today).getD zeroRecord with
              water_ml := ((s.records today).getD zeroRecord).water_ml + ml })
    ∧ add_water_route s today none = add_water s today 250
    ∧ (ml < 0 →
      add_water s today ml = (s, Except.error HealthError.validationError)) := by
  refine ⟨fun hml => ?_, rfl, fun hml => ?_⟩
  · unfold add_water
    rw [if_neg (not_lt.mpr hml)]
    unfold getOrCreateToday
    cases hrec : s.records today with
    | none => simp [setToday, Option.getD]
    | some r => simp [setToday, Option.getD]
  · unfold add_water
    rw [if_pos hml]

/-- Witness for C7: adding 100 ml on the empty store stores a day-0
record with 100 ml of water. -/
theorem add_water_spec_witness :
    (add_water emptyStore 0 100).1.records 0
      = some { zeroRecord with water_ml := zeroRecord.water_ml + 100 } :=
  ((add_water_spec emptyStore 0 100).1 (by norm_num)).1

/-! ## Progress stats, modelled from the spec (§4.3) -/

/-- Modelled from the spec: the plan-supplied meal and exercise lists
for one day, against which completion ratios are computed (§4.3). -/
structure DayPlan where
  meals : List (List Char)
  exercises : List (List Char)
  deriving Repr, DecidableEq

/-- The stats snapshot returned by `getProgressStats` (§4.3). -/
structure ProgressStats where
  meal_progress : ℚ
  exercise_progress : ℚ
  step_progress : ℚ
  water_progress : ℚ
  sleep_progress : ℚ
  deriving Repr, DecidableEq

/-- Modelled from the spec: `getProgressStats` of §4.3 (`tracker.py` is
not in the sources) — completion ratios completed/total for today's
meals and exercises, plus step, water and sleep progress against their
goals; every zero denominator yields ratio 0, never an error. -/
def get_progress_stats (r : TrackerRecord) (plan : DayPlan)
    (dayKey : List Char) (stepGoal waterGoal : ℤ) (sleepTarget : ℚ) :
    ProgressStats :=
  let totalMeals := plan.meals.length
  let doneMeals := (plan.meals.filter (fun m => r.meals m)).length
  let totalEx := plan.exercises.length
  let doneEx := (plan.exercises.filter (fun e => r.exercises dayKey e)).length
  { meal_progress :=
      if totalMeals = 0 then 0 else (doneMeals : ℚ) / (totalMeals : ℚ)
    exercise_progress :=
      if totalEx = 0 then 0 else (doneEx : ℚ) / (totalEx : ℚ)
    step_progress :=
      if stepGoal = 0 then 0 else (r.steps : ℚ) / (stepGoal : ℚ)
    water_progress :=
      if waterGoal = 0 then 0 else (r.water_ml : ℚ) / (waterGoal : ℚ)
    sleep_progress :=
      if sleepTarget = 0 then 0 else r.sleep_hours / sleepTarget }

/-- C6: `getProgressStats` is total on records with no defined meals or
exercises — when the plan defines zero meals (resp. zero exercises) for
today, the corresponding completion ratio is 0, with no
division-by-zero failure (the function returns plain values, never an
error). -/
theorem get_progress_stats_empty (r : TrackerRecord) (plan : DayPlan)
    (dayKey : List Char) (stepGoal waterGoal : ℤ) (sleepTarget : ℚ) :
    (plan.meals = [] →
      (get_progress_stats r plan dayKey stepGoal waterGoal
        sleepTarget).meal_progress = 0)
    ∧ (plan.exercises = [] →
      (get_progress_stats r plan dayKey stepGoal waterGoal
        sleepTarget).exercise_progress = 0) := by
  constructor
  · intro hm
    simp [get_progress_stats, hm]
  · intro he
    simp [get_progress_stats, he]

/-- Witness for C6: with an empty day plan, both ratios are 0. -/
theorem get_progress_stats_empty_witness :
    (get_progress_stats zeroRecord ⟨[], []⟩ [] 10000 2000 8).meal_progress = 0
      ∧ (get_progress_stats zeroRecord ⟨[], []⟩ [] 10000 2000
          8).exercise_progress = 0 :=
  ⟨(get_progress_stats_empty zeroRecord ⟨[], []⟩ [] 10000 2000 8).1 rfl,
   (get_progress_stats_empty zeroRecord ⟨[], []⟩ [] 10000 2000 8).2 rfl⟩

/-! ## Weekly aggregator, modelled from the spec (§4.4) -/

/-- The derived weekly summary (§3): 7 daily entries plus aggregate
totals; per-day completion ratios are derivable from the entries. -/
structure WeeklySummary where
  entries : List TrackerRecord
  total_steps : ℤ
  total_water : ℤ
  avg_sleep : ℚ

/-- Modelled from the spec: `getWeeklySummary` of §4.4 (`tracker.py` is
not in the sources) — builds the 7 calendar dates ending at the
reference date inclusive, fetches each day's record defaulting to the
zero-valued record, and aggregates.  It is a pure read: the store is
only consulted, never written. -/
def get_weekly_summary (s : TrackerStore) (refDate : ℤ) : WeeklySummary :=
  let dates := (List.range 7).map (fun i : ℕ => refDate - 6 + (i : ℤ))
  let recs := dates.map (fun d => (s.records d).getD zeroRecord)
  { entries := recs
    total_steps := (recs.map TrackerRecord.steps).sum
    total_water := (recs.map TrackerRecord.water_ml).sum
    avg_sleep := (recs.map TrackerRecord.sleep_hours).sum / 7 }

/-- Summing a per-date field over defaulted records equals summing it
over only the dates that actually hold a record, because the default
contributes zero. -/
lemma sum_default_eq_sum_filterMap {β : Type} [AddCommMonoid β]
    (g : ℤ → Option TrackerRecord) (f : TrackerRecord → β)
    (hf : f zeroRecord = 0) (l : List ℤ) :
    ((l.map (fun d => (g d).getD zeroRecord)).map f).sum
      = ((l.filterMap g).map f).sum := by
  induction l with
  | nil => rfl
  | cons d ds ih =>
    cases hgd : g d with
    | none =>
      simp only [List.map_cons, List.sum_cons, List.filterMap_cons, hgd,
        Option.getD_none, hf, zero_add, ih]
    | some r =>
      simp only [List.map_cons, List.sum_cons, List.filterMap_cons, hgd,
        Option.getD_some, ih]

/-- C4: `getWeeklySummary` returns exactly 7 entries covering the 7
calendar dates ending at the reference date inclusive, each missing
date represented by the zero-valued default (never an error); the
aggregate totals equal the sums over only the dates that actually hold
a stored record; and the read leaves the store untouched (it is a pure
function of the store). -/
theorem get_weekly_summary_spec (s : TrackerStore) (refDate : ℤ) :
    (get_weekly_summary s refDate).entries.length = 7
    ∧ (get_weekly_summary s refDate).entries
      = (List.range 7).map
          (fun i : ℕ => (s.records (refDate - 6 + (i : ℤ))).getD zeroRecord)
    ∧ (get_weekly_summary s refDate).total_steps
      = (((((List.range 7).map (fun i : ℕ => refDate - 6 + (i : ℤ))).filterMap
            s.records).map TrackerRecord.steps)).sum
    ∧ (get_weekly_summary s refDate).total_water
      = (((((List.range 7).map (fun i : ℕ => refDate - 6 + (i : ℤ))).filterMap
            s.records).map TrackerRecord.water_ml)).sum
    ∧ (get_weekly_summary s refDate).avg_sleep
      = (((((List.range 7).map (fun i : ℕ => refDate - 6 + (i : ℤ))).filterMap
            s.records).map TrackerRecord.sleep_hours)).sum / 7 := by
  refine ⟨?_, ?_, ?_, ?_, ?_⟩
  · simp only [get_weekly_summary, List.length_map, List.length_range]
  · simp [get_weekly_summary, List.map_map, Function.comp]
  · exact sum_default_eq_sum_filterMap s.records TrackerRecord.steps rfl _
  · exact sum_default_eq_sum_filterMap s.records TrackerRecord.water_ml rfl _
  · exact congrArg (fun x => x / 7)
      (sum_default_eq_sum_filterMap s.records TrackerRecord.sleep_hours rfl _)

/-! ## Plan generator, modelled from the spec (§4.2)

`main.py` (class `HealthFitnessXAISystem`, method
`generate_complete_plan`) is imported by `src/app.py` but is not in the
sources; the generator below follows §4.2: calorie target from TDEE and
a goal offset, rule tables keyed by goal and activity level, fixed
deterministic templates, `NotFoundError` when no profile is stored and
`ValidationError` when the profile fails metric validation. -/

/-- Modelled from the spec: the goal-dependent calorie offsets of §4.2
(lose −500, gain +300, maintain 0; policy constants). -/
def goalOffset : FitnessGoal → ℚ
  | FitnessGoal.lose => -500
  | FitnessGoal.gain => 300
  | FitnessGoal.maintain => 0

/-- Modelled from the spec: the dietary-focus tag of §4.2. -/
inductive DietaryFocus where
  | deficitProtein
  | balanced
  | surplus
  deriving Repr, DecidableEq

/-- Modelled from the spec: the fixed rule table of §4.2 selecting the
(protein, carb, fat) percentage split by goal and activity level. -/
def nutrientSplit : FitnessGoal → ActivityLevel → ℚ × ℚ × ℚ
  | FitnessGoal.lose, _ => (40, 30, 30)
  | FitnessGoal.maintain, _ => (30, 40, 30)
  | FitnessGoal.gain, _ => (30, 45, 25)

/-- Modelled from the spec: the fixed rule table of §4.2 selecting the
dietary-focus tag by goal and activity level. -/
def dietaryFocusRule : FitnessGoal → ActivityLevel → DietaryFocus
  | FitnessGoal.lose, _ => DietaryFocus.deficitProtein
  | FitnessGoal.maintain, _ => DietaryFocus.balanced
  | FitnessGoal.gain, _ => DietaryFocus.surplus

/-- Modelled from the spec: the fixed mapping of §4.2 from activity
level and goal to weekly workout frequency. -/
def workoutFrequency : ActivityLevel → FitnessGoal → ℕ
  | ActivityLevel.sedentary, FitnessGoal.lose => 4
  | ActivityLevel.sedentary, _ => 3
  | ActivityLevel.light, FitnessGoal.lose => 4
  | ActivityLevel.light, _ => 3
  | ActivityLevel.moderate, FitnessGoal.lose => 5
  | ActivityLevel.moderate, _ => 4
  | ActivityLevel.active, FitnessGoal.gain => 4
  | ActivityLevel.active, _ => 5
  | ActivityLevel.veryActive, FitnessGoal.gain => 5
  | ActivityLevel.veryActive, _ => 6

/-- Modelled from the spec: the fixed 7-day exercise template of §4.2,
keyed by goal (day → ordered list of exercise names). -/
def exerciseTemplate : FitnessGoal → List (List (List Char))
  | FitnessGoal.lose => List.replicate 7 ["cardio".toList, "core".toList]
  | FitnessGoal.maintain => List.replicate 7 ["mixed session".toList]
  | FitnessGoal.gain => List.replicate 7 ["strength".toList]

/-- Modelled from the spec: the fixed meal template of §4.2, keyed by
goal (meal type → list of food items). -/
def mealTemplate : FitnessGoal → List (List Char × List (List Char))
  | FitnessGoal.lose =>
      [("breakfast".toList, ["oats".toList]),
       ("lunch".toList, ["salad".toList, "lean meat".toList]),
       ("dinner".toList, ["vegetables".toList])]
  | FitnessGoal.maintain =>
      [("breakfast".toList, ["eggs".toList]),
       ("lunch".toList, ["rice".toList, "chicken".toList]),
       ("dinner".toList, ["fish".toList, "vegetables".toList])]
  | FitnessGoal.gain =>
      [("breakfast".toList, ["oats".toList, "peanut butter".toList]),
       ("lunch".toList, ["rice".toList, "beef".toList]),
       ("dinner".toList, ["pasta".toList, "chicken".toList])]

/-- Modelled from the spec: the `Plan` record of §3. -/
structure Plan where
  goal : FitnessGoal
  daily_calories : ℚ
  protein_pct : ℚ
  carb_pct : ℚ
  fat_pct : ℚ
  workout_frequency : ℕ
  dietary_focus : DietaryFocus
  exercise_template : List (List (List Char))
  meal_template : List (List Char × List (List Char))
  deriving Repr, DecidableEq

/-- Modelled from the spec: profile storage consulted by the plan
generator (§6); the system holds one optional profile per user id. -/
structure SystemState where
  profiles : List Char → Option UserProfile

/-- Modelled from the spec: `generate_complete_plan` of §4.2 (`main.py`
is not in the sources) — `NotFoundError` if no profile is stored for
the user, `ValidationError` propagated from the Metrics Calculator,
otherwise the fully deterministic plan built from the profile. -/
def generate_complete_plan (s : SystemState) (uid : List Char) :
    Except HealthError Plan :=
  match s.profiles uid with
  | none => Except.error HealthError.notFoundError
  | some p =>
    match computeMetrics p with
    | Except.error e => Except.error e
    | Except.ok m =>
      Except.ok
        { goal := p.goal
          daily_calories := m.tdee + goalOffset p.goal
          protein_pct := (nutrientSplit p.goal p.activity).1
          carb_pct := (nutrientSplit p.goal p.activity).2.1
          fat_pct := (nutrientSplit p.goal p.activity).2.2
          workout_frequency := workoutFrequency p.activity p.goal
          dietary_focus := dietaryFocusRule p.goal p.activity
          exercise_template := exerciseTemplate p.goal
          meal_template := mealTemplate p.goal }

/-- C1: plan generation is deterministic — for any user whose stored
profile is the same across two calls (in particular, two calls on one
unchanged system state), `generate_complete_plan` yields identical
output, structure for structure. -/
theorem generate_complete_plan_deterministic (s1 s2 : SystemState)
    (uid : List Char) (h : s1.profiles uid = s2.profiles uid) :
    generate_complete_plan s1 uid = generate_complete_plan s2 uid := by
  unfold generate_complete_plan
  rw [h]

/-- Witness for C1: two states holding the worked-example profile under
user id `u` (and differing elsewhere) produce the same plan. -/
theorem generate_complete_plan_deterministic_witness :
    generate_complete_plan ⟨fun _ => some sampleMale⟩ ['u']
      = generate_complete_plan
          ⟨fun uid => if uid = ['u'] then some sampleMale else none⟩ ['u'] :=
  generate_complete_plan_deterministic _ _ ['u'] (by simp)

end XAIHealth
